import Mathlib

/-!
Verification of the `flask_production` scheduler core (`sched.py`, `plugins.py`)
against its natural-language specification.

The builder/registry/dispatch logic is embedded from `src/flask_production/sched.py`
and the monitor's state projection from `src/flask_production/plugins.py`.
The job-variant module (`jobs.py`: the five job classes, `AsyncJobWrapper`,
`BadScheduleError`) is not part of the provided sources, so the pieces of it the
scheduler calls (`is_valid_interval`, `is_due`, `run`, next-run initialization)
are modelled from the spec, as noted on each definition.  External libraries
(the `dateutil` timezone database, wall clocks, calendar arithmetic) are
abstracted as explicit function parameters.
-/

/-- Python values that can be passed as the `strict` argument of
`strict_date` (the source checks `isinstance(strict, bool)`). -/
inductive PyVal where
  | bool (b : Bool)
  | int (n : Int)
  | str (s : String)
  | none
deriving DecidableEq

/-- `isinstance(v, bool)` for a `PyVal`. -/
def PyVal.isBool : PyVal → Bool
  | .bool _ => true
  | _ => false

/-- Extract the boolean payload, if any. -/
def PyVal.asBool : PyVal → Option Bool
  | .bool b => some b
  | _ => Option.none

/-- The Python exception kinds raised by the scheduler sources:
`BadScheduleError` (from `jobs.py`), `ValueError` (`sched.py` line 76),
`IndexError` and `RuntimeError` (`sched.py` `rerun`), and the plain
`Exception` of `do()` when no interval was chosen. -/
inductive PyErr where
  | badScheduleError
  | valueError
  | indexError
  | runtimeError
  | exception
deriving DecidableEq

/-- An interval descriptor handed to `every()`/`on()`: the Python callers pass
either an integer number of seconds or a string descriptor. -/
inductive IntervalDesc where
  | int (n : Int)
  | str (s : String)
deriving DecidableEq

/-- The five job classes of `jobs.py`, in the dispatch order of
`TaskScheduler.do` (`sched.py` lines 176-185). -/
inductive JobVariant where
  | RepeatJob
  | OneTimeJob
  | MonthlyJob
  | Job
  | NeverJob
deriving DecidableEq

/-- Ordinal suffix for day-of-month strings: 1st, 2nd, 3rd, 4th, ..., 21st,
22nd, 23rd, ..., 31st. -/
def ordinalSuffix (n : Nat) : String :=
  if n % 10 == 1 && n % 100 != 11 then "st"
  else if n % 10 == 2 && n % 100 != 12 then "nd"
  else if n % 10 == 3 && n % 100 != 13 then "rd"
  else "th"

/-- The day-of-month descriptor string for day `n`, e.g. `ordinal 31 = "31st"`. -/
def ordinal (n : Nat) : String :=
  toString n ++ ordinalSuffix n

/-- Parse a monthly descriptor back to its day number: `some n` iff the string
is one of `"1st"`, ..., `"31st"`. -/
def monthlyOrd (s : String) : Option Nat :=
  ((List.range 31).find? (fun i => ordinal (i + 1) == s)).map (· + 1)

/-- Numeric value of a digit character. -/
def digitVal (c : Char) : Nat := c.toNat - 48

/-- Modelled from the spec: `OneTimeJob` accepts descriptors that parse as an
ISO date `YYYY-MM-DD` (spec section 4.2, variant 2).  The date parser of the
missing `jobs.py` is modelled as this shape test. -/
def isISODate (s : String) : Bool :=
  match s.toList with
  | [y1, y2, y3, y4, c1, m1, m2, c2, d1, d2] =>
    y1.isDigit && y2.isDigit && y3.isDigit && y4.isDigit &&
    c1 == '-' && m1.isDigit && m2.isDigit && c2 == '-' && d1.isDigit && d2.isDigit &&
    decide (1 ≤ digitVal m1 * 10 + digitVal m2) && decide (digitVal m1 * 10 + digitVal m2 ≤ 12) &&
    decide (1 ≤ digitVal d1 * 10 + digitVal d2) && decide (digitVal d1 * 10 + digitVal d2 ≤ 31)
  | _ => false

/-- The day-based descriptors accepted by the plain `Job` variant
(spec section 4.2, variant 4). -/
def dailySpecs : List String :=
  ["day", "weekday", "weekend", "businessday",
   "monday", "tuesday", "wednesday", "thursday", "friday", "saturday", "sunday"]

/-- Modelled from the spec: `RepeatJob.is_valid_interval` — `every` is a
positive integer number of seconds (spec section 4.2, variant 1).  Takes an
`Option` because `strict_date` applies it to a possibly unset builder field. -/
def RepeatJob.is_valid_interval : Option IntervalDesc → Bool
  | some (.int n) => decide (0 < n)
  | _ => false

/-- Modelled from the spec: `OneTimeJob.is_valid_interval` — the descriptor
parses as an ISO date (spec section 4.2, variant 2). -/
def OneTimeJob.is_valid_interval : Option IntervalDesc → Bool
  | some (.str s) => isISODate s
  | _ => false

/-- Modelled from the spec: `MonthlyJob.is_valid_interval` — the descriptor is
one of `"1st"` ... `"31st"` (spec section 4.2, variant 3). -/
def MonthlyJob.is_valid_interval : Option IntervalDesc → Bool
  | some (.str s) => (monthlyOrd s).isSome
  | _ => false

/-- Modelled from the spec: `Job.is_valid_interval` — the descriptor is one of
the day-based keywords (spec section 4.2, variant 4). -/
def Job.is_valid_interval : Option IntervalDesc → Bool
  | some (.str s) => dailySpecs.contains s
  | _ => false

/-- Modelled from the spec: `NeverJob.is_valid_interval` — the descriptor is
exactly `"never"` (spec section 4.2, variant 5). -/
def NeverJob.is_valid_interval : Option IntervalDesc → Bool
  | some (.str s) => s == "never"
  | _ => false

example : MonthlyJob.is_valid_interval (some (.str "31st")) = true := by decide
example : MonthlyJob.is_valid_interval (some (.str "22nd")) = true := by decide
example : MonthlyJob.is_valid_interval (some (.str "11th")) = true := by decide
example : MonthlyJob.is_valid_interval (some (.str "32nd")) = false := by decide
example : OneTimeJob.is_valid_interval (some (.str "2019-05-16")) = true := by decide
example : OneTimeJob.is_valid_interval (some (.str "day")) = false := by decide
example : Job.is_valid_interval (some (.str "businessday")) = true := by decide

/-- The wall-clock facts about "today" in some timezone that the job
eligibility predicates consume: day of week (0 = Monday ... 6 = Sunday),
whether the holiday calendar marks today, today's ISO date string, the day
of the month and the number of days in the current month. -/
structure Today where
  dow : Nat
  is_holiday : Bool
  date_str : String
  day_of_month : Nat
  days_in_month : Nat
deriving DecidableEq

/-- The external clock / calendar services the scheduler calls
(`time.time()`, `datetime.now(tz)`, `dateutil` parsing and the occurrence
arithmetic of the missing `jobs.py`), abstracted as functions:
`now` is the current epoch second; `nowHHMM tz` the current wall clock
formatted `"HH:MM"` in timezone `tz`; `today tz` the facts about today in
`tz`; `toEpoch date hhmm tz` the epoch second of `date` at `hhmm` in `tz`;
`nextOccur interval hhmm tz` the next occurrence computed for the monthly and
day-based variants (their date arithmetic lives in the missing `jobs.py` and
is not examined by any claim). -/
structure Clock where
  now : Nat
  nowHHMM : String → String
  today : String → Today
  toEpoch : String → String → String → Nat
  nextOccur : IntervalDesc → String → String → Nat

/-- A registered job as the scheduler sees it: the fields of the `jobs.py`
classes that `sched.py` and the spec mention.  `is_async` is true when the
job was wrapped in `AsyncJobWrapper`.  `next_run_at` is epoch seconds with
`0` the "never again" sentinel (spec section 3). -/
structure SchedJob where
  jobid : Nat
  variant : JobVariant
  interval : IntervalDesc
  at_time : Option String
  tzname : String
  calendar : String
  strict_date : Option Bool
  next_run_at : Nat
  is_running : Bool
  is_enabled : Bool
  is_async : Bool
deriving DecidableEq

/-- Index of a weekday-name descriptor (0 = Monday), `none` otherwise. -/
def dayNameIndex : String → Option Nat
  | "monday" => some 0
  | "tuesday" => some 1
  | "wednesday" => some 2
  | "thursday" => some 3
  | "friday" => some 4
  | "saturday" => some 5
  | "sunday" => some 6
  | _ => Option.none

/-- Modelled from the spec: `must_run_today` of the missing `jobs.py`
(spec section 4.2): `RepeatJob` ignores the calendar; `OneTimeJob` runs on
its date; `MonthlyJob` follows the `strict_date` policy; the day-based `Job`
matches its keyword against the day of week and the holiday flag;
`NeverJob` never runs on its own. -/
def SchedJob.must_run_today (j : SchedJob) (t : Today) : Bool :=
  match j.variant, j.interval with
  | .RepeatJob, _ => true
  | .OneTimeJob, .str d => t.date_str == d
  | .MonthlyJob, .str s =>
    match monthlyOrd s, j.strict_date with
    | some n, some true => t.day_of_month == n
    | some n, some false =>
      t.day_of_month == n || (decide (t.days_in_month < n) && t.day_of_month == t.days_in_month)
    | _, _ => false
  | .Job, .str s =>
    if s == "day" then true
    else if s == "weekday" then decide (t.dow ≤ 4)
    else if s == "weekend" then decide (5 ≤ t.dow)
    else if s == "businessday" then decide (t.dow ≤ 4) && !t.is_holiday
    else
      match dayNameIndex s with
      | some i => t.dow == i
      | _ => false
  | .NeverJob, _ => false
  | _, _ => false

/-- Modelled from the spec: the eligibility predicate `is_due` of the missing
`jobs.py` (spec section 3: a job is eligible to run iff
`is_enabled ∧ not is_running ∧ now ≥ next_run_at ∧ must_run_today`; the `0`
sentinel marks a terminal job that "cannot advance except via explicit
rerun", spec glossary, so it is never due). -/
def SchedJob.is_due (j : SchedJob) (ctx : Clock) : Bool :=
  j.is_enabled && !j.is_running && decide (0 < j.next_run_at) &&
    decide (j.next_run_at ≤ ctx.now) && j.must_run_today (ctx.today j.tzname)

/-- Modelled from the spec: the `next_run_at` a completed run computes
(spec sections 4.3 step 7 and 8/P1): `RepeatJob` advances by its period from
the completion time; `OneTimeJob` and `NeverJob` are terminal and go to `0`;
the monthly and day-based variants take the next occurrence from the
calendar arithmetic. -/
def SchedJob.afterRunNext (j : SchedJob) (ctx : Clock) : Nat :=
  match j.variant, j.interval with
  | .RepeatJob, .int n => ctx.now + n.toNat
  | .RepeatJob, _ => 0
  | .OneTimeJob, _ => 0
  | .NeverJob, _ => 0
  | _, _ => ctx.nextOccur j.interval (j.at_time.getD "") j.tzname

/-- Modelled from the spec: `run()` of the missing `jobs.py`
(spec section 4.3).  Entering `run` while `is_running` is a no-op (step 1);
otherwise the job body executes (log capture and callbacks are not
observable by any claim and are elided) and the job is rescheduled from the
completion time (step 7). -/
def SchedJob.run (j : SchedJob) (ctx : Clock) : SchedJob :=
  if j.is_running then j
  else { j with next_run_at := j.afterRunNext ctx }

/-- Modelled from the spec: the `next_run_at` computed when a job is
initialized at registration (spec section 4.2, including the startup-grace
policy for a `OneTimeJob` whose date already passed: within
`startup_grace_mins` minutes the past instant is kept so the next tick fires
it, beyond it the job is terminal with `next_run_at = 0`). -/
def initNextRun (ctx : Clock) (grace : Nat) (j : SchedJob) : Nat :=
  match j.variant, j.interval with
  | .RepeatJob, .int n => ctx.now + n.toNat
  | .RepeatJob, _ => 0
  | .OneTimeJob, .str d =>
    let target := ctx.toEpoch d (j.at_time.getD "") j.tzname
    if ctx.now ≤ target then target
    else if ctx.now - target ≤ grace * 60 then target
    else 0
  | .OneTimeJob, _ => 0
  | .NeverJob, _ => 0
  | _, _ => ctx.nextOccur j.interval (j.at_time.getD "") j.tzname

/-- The scheduler object of `sched.py`: the job registry plus the mutable
builder fields reset by `__reset_defaults` (`sched.py` lines 104-109).
`tz_default` is `_tz_default`, `strict_monthly` is `_strict_monthly`,
`holidays_calendar` names the holiday calendar in use and `job_calendar` an
optional per-job override. -/
structure TaskScheduler where
  jobs : List SchedJob
  tz_default : String
  holidays_calendar : String
  startup_grace_mins : Nat
  interval : Option IntervalDesc
  temp_time : Option String
  tzname : String
  strict_monthly : Option Bool
  job_calendar : Option String
deriving DecidableEq

/-- `TaskScheduler.__reset_defaults` (`sched.py` lines 104-109). -/
def TaskScheduler.reset_defaults (s : TaskScheduler) : TaskScheduler :=
  { s with interval := Option.none, temp_time := Option.none, tzname := s.tz_default,
           strict_monthly := Option.none, job_calendar := Option.none }

/-- `TaskScheduler.__init__` (`sched.py` lines 58-101), restricted to the
fields the claims read.  `gettzSome name` models `dateutil`'s
`tz.gettz(name) is not None`; `localzone` models
`tzlocal.get_localzone_name()`, used when no `tzname` is passed.  An unknown
timezone raises `ValueError` (`sched.py` line 76). -/
def TaskScheduler.pyInit (gettzSome : String → Bool) (localzone : String)
    (tzname : Option String) (holidays_calendar : Option String)
    (startup_grace_mins : Nat) : Except PyErr TaskScheduler :=
  let tzn := tzname.getD localzone
  if gettzSome tzn = false then .error .valueError
  else .ok
    { jobs := [], tz_default := tzn,
      holidays_calendar := holidays_calendar.getD "USHolidays",
      startup_grace_mins := startup_grace_mins,
      interval := Option.none, temp_time := Option.none, tzname := tzn,
      strict_monthly := Option.none, job_calendar := Option.none }

/-- `TaskScheduler.every` (`sched.py` lines 115-122). -/
def TaskScheduler.every (s : TaskScheduler) (interval : IntervalDesc)
    (calendar : Option String) : TaskScheduler :=
  { s with interval := some interval, job_calendar := calendar }

/-- `TaskScheduler.on`, alias of `.every()` (`sched.py` lines 124-126). -/
def TaskScheduler.on (s : TaskScheduler) (interval : IntervalDesc)
    (calendar : Option String) : TaskScheduler :=
  s.every interval calendar

/-- `TaskScheduler.strict_date` (`sched.py` lines 128-136): rejected with
`BadScheduleError` unless the pending interval is a valid monthly descriptor
and the argument is a Python `bool`. -/
def TaskScheduler.strict_date (s : TaskScheduler) (strict : PyVal) :
    Except PyErr TaskScheduler :=
  if !(MonthlyJob.is_valid_interval s.interval) || !strict.isBool then
    .error .badScheduleError
  else .ok { s with strict_monthly := strict.asBool }

/-- `TaskScheduler.at` (`sched.py` lines 138-146): with no interval chosen
yet it first calls `self.every('day')`, then records the time string.
(`at` is a reserved word in Lean, hence the trailing underscore.) -/
def TaskScheduler.at_ (s : TaskScheduler) (time_string : String) : TaskScheduler :=
  let s := if s.interval.isNone then s.every (.str "day") Option.none else s
  { s with temp_time := some time_string }

/-- `TaskScheduler.timezone` (`sched.py` lines 148-158): an unknown timezone
name raises `BadScheduleError`. -/
def TaskScheduler.timezone (s : TaskScheduler) (gettzSome : String → Bool)
    (tzname : String) : Except PyErr TaskScheduler :=
  if gettzSome tzname = false then .error .badScheduleError
  else .ok { s with tzname := tzname }

/-- `TaskScheduler.tz`, alias of `.timezone()` (`sched.py` lines 160-162). -/
def TaskScheduler.tz (s : TaskScheduler) (gettzSome : String → Bool)
    (tzname : String) : Except PyErr TaskScheduler :=
  s.timezone gettzSome tzname

/-- `j.init(...)` as called from `do()` (`sched.py` lines 189-194): the job
receives the scheduler's holiday calendar unless a per-job calendar was
given, the pending timezone, and its initial `next_run_at` (the latter
modelled from the spec, see `initNextRun`). -/
def jobInitialize (ctx : Clock) (s : TaskScheduler) (j : SchedJob) : SchedJob :=
  let j := { j with
    calendar := s.job_calendar.getD s.holidays_calendar,
    tzname := s.tzname }
  { j with next_run_at := initNextRun ctx s.startup_grace_mins j }

/-- A job record as freshly constructed by one of the five class
constructors in `do()`, before `init` runs. -/
def mkJob (jobid : Nat) (variant : JobVariant) (interval : IntervalDesc)
    (at_time : Option String) (strict_date : Option Bool) : SchedJob :=
  { jobid := jobid, variant := variant, interval := interval, at_time := at_time,
    tzname := "", calendar := "", strict_date := strict_date, next_run_at := 0,
    is_running := false, is_enabled := true, is_async := false }

/-- The variant-selection cascade of `TaskScheduler.do` (`sched.py` lines
176-187): the five variants are tried in order and `BadScheduleError` is
raised when none accepts.  The `MonthlyJob` branch is partly modelled from
the spec: its constructor lives in the missing `jobs.py`, and the spec pins
`strict_date` as required for monthly jobs, its absence raising
`BadSchedule` (spec sections 4.2 and 4.6). -/
def doBuild (new_jobid : Nat) (iv : IntervalDesc) (temp_time : String)
    (strict_monthly : Option Bool) : Except PyErr SchedJob :=
  if RepeatJob.is_valid_interval (some iv) then
    .ok (mkJob new_jobid .RepeatJob iv Option.none Option.none)
  else if OneTimeJob.is_valid_interval (some iv) then
    .ok (mkJob new_jobid .OneTimeJob iv (some temp_time) Option.none)
  else if MonthlyJob.is_valid_interval (some iv) then
    match strict_monthly with
    | Option.none => .error .badScheduleError
    | some b => .ok (mkJob new_jobid .MonthlyJob iv (some temp_time) (some b))
  else if Job.is_valid_interval (some iv) then
    .ok (mkJob new_jobid .Job iv (some temp_time) Option.none)
  else if NeverJob.is_valid_interval (some iv) then
    .ok (mkJob new_jobid .NeverJob iv (some temp_time) Option.none)
  else .error .badScheduleError

/-- `TaskScheduler.do` (`sched.py` lines 164-205).  With no interval a plain
`Exception` is raised (line 171); a missing `.at()` time defaults to the
current wall clock in the scheduler's default timezone (line 173); the
variant cascade `doBuild` constructs the job, which is initialized,
optionally wrapped in `AsyncJobWrapper`, appended to the registry; finally
the builder defaults are reset (lines 189-205).  (`do` is a reserved word
in Lean, hence the trailing underscore.) -/
def TaskScheduler.do_ (s : TaskScheduler) (ctx : Clock) (do_parallel : Bool) :
    Except PyErr (TaskScheduler × SchedJob) :=
  match s.interval with
  | Option.none => .error .exception
  | some iv =>
    let temp_time := match s.temp_time with
      | some t => t
      | Option.none => ctx.nowHHMM s.tz_default
    match doBuild s.jobs.length iv temp_time s.strict_monthly with
    | .error e => .error e
    | .ok j0 =>
      let j1 := jobInitialize ctx s j0
      let j2 := if do_parallel then { j1 with is_async := true } else j1
      .ok ({ s.reset_defaults with jobs := s.jobs ++ [j2] }, j2)

/-- One pass of the dispatch loop body over the job list
(`sched.py` lines 215-219): each job with `is_due()` true and `is_running`
false has `run()` invoked on it; the others are untouched.  Instrumented to
also return, in list order, the ids of the jobs whose `run()` was invoked. -/
def checkPass (ctx : Clock) : List SchedJob → List SchedJob × List Nat
  | [] => ([], [])
  | j :: rest =>
    let r := checkPass ctx rest
    if j.is_due ctx && !j.is_running then (j.run ctx :: r.1, j.jobid :: r.2)
    else (j :: r.1, r.2)

/-- `TaskScheduler.check` (`sched.py` lines 215-219).  The Python loop walks
`self.jobs.copy()`, a shallow copy, and mutates the job objects in place; in
this pure embedding that is one structural pass producing the new registry
(same list cells, run jobs replaced) plus the ids of the invoked jobs. -/
def TaskScheduler.check (s : TaskScheduler) (ctx : Clock) :
    TaskScheduler × List Nat :=
  let r := checkPass ctx s.jobs
  ({ s with jobs := r.1 }, r.2)

/-- `TaskScheduler.get_job_by_id` (`sched.py` lines 253-257): first job with
a matching id, else `None`. -/
def TaskScheduler.get_job_by_id (s : TaskScheduler) (jobid : Nat) : Option SchedJob :=
  s.jobs.find? (fun j => j.jobid == jobid)

/-- What `rerun` did: which job ran, whether through the async wrapper, and
with which `is_rerun` flag.  The thread spawned by the missing
`AsyncJobWrapper` is summarized by this record. -/
structure RerunOutcome where
  jobid : Nat
  viaAsyncWrapper : Bool
  is_rerun : Bool
deriving DecidableEq

/-- `TaskScheduler.rerun` (`sched.py` lines 259-267): unknown id raises
`IndexError`; a running job raises `RuntimeError`; otherwise the selected
job — wrapped in `AsyncJobWrapper` on the fly if it is serial — is run with
`is_rerun=True`. -/
def TaskScheduler.rerun (s : TaskScheduler) (jobid : Nat) :
    Except PyErr RerunOutcome :=
  match s.get_job_by_id jobid with
  | Option.none => .error .indexError
  | some selected_job =>
    if selected_job.is_running then .error .runtimeError
    else
      let selected_job :=
        if !selected_job.is_async then { selected_job with is_async := true }
        else selected_job
      .ok { jobid := selected_job.jobid, viaAsyncWrapper := selected_job.is_async,
            is_rerun := true }

/-- Python `str.strip()` whitespace set: space, tab, newline, carriage
return, vertical tab, form feed. -/
def isPySpace (c : Char) : Bool :=
  c == ' ' || c == '\t' || c == '\n' || c == Char.ofNat 13 ||
  c == Char.ofNat 11 || c == Char.ofNat 12

/-- Python `str.strip()` with no argument: drop leading and trailing
whitespace. -/
def pyStrip (s : String) : String :=
  String.mk (((s.data.dropWhile isPySpace).reverse.dropWhile isPySpace).reverse)

/-- The `logs` sub-dictionary of `job.to_dict()` that the monitor reads:
`start`/`end` timestamps or `None`, and the captured stdout/stderr text.
(`end` is a reserved word in Lean, hence the trailing underscore.) -/
structure JobLogs where
  start : Option Nat
  end_ : Option Nat
  log : String
  err : String
deriving DecidableEq

/-- The part of a `job.to_dict()` snapshot consumed by
`ReadOnlyTaskMonitor.__job_state`. -/
structure JobDict where
  is_running : Bool
  logs : JobLogs
deriving DecidableEq

/-- `ReadOnlyTaskMonitor.__job_state` (`plugins.py` lines 192-200): `READY`
unless overridden, `RUNNING` if `is_running`, else `ERROR` if the stripped
`logs['err']` is nonempty, else `SUCCESS` if `logs['end']` is not `None` and
the stripped `logs['log']` is nonempty. -/
def ReadOnlyTaskMonitor.job_state (jdict : JobDict) : String :=
  if jdict.is_running then "RUNNING"
  else if !(pyStrip jdict.logs.err == "") then "ERROR"
  else if jdict.logs.end_.isSome && !(pyStrip jdict.logs.log == "") then "SUCCESS"
  else "READY"

/-- `checkPass` in closed form: the new registry is a pointwise map (run the
eligible jobs, keep the rest) and the invoked ids are exactly the eligible
jobs' ids in list order. -/
theorem checkPass_eq (ctx : Clock) (l : List SchedJob) :
    checkPass ctx l =
      (l.map (fun j => if j.is_due ctx && !j.is_running then j.run ctx else j),
       (l.filter (fun j => j.is_due ctx && !j.is_running)).map SchedJob.jobid) := by
  induction l with
  | nil => rfl
  | cons j rest ih =>
    simp only [checkPass, ih, List.map_cons, List.filter_cons]
    by_cases h : (j.is_due ctx && !j.is_running) = true
    · simp [h]
    · simp [h]

/-- A due job is not running (`is_due` carries `not is_running`). -/
theorem is_due_not_running (j : SchedJob) (ctx : Clock) (h : j.is_due ctx = true) :
    j.is_running = false := by
  by_contra hb
  have hr : j.is_running = true := by
    cases hj : j.is_running
    · exact absurd hj hb
    · rfl
  simp [SchedJob.is_due, hr] at h

/-- Claim C2: a dispatch pass `check()` walks a shallow copy of the jobs
list and invokes `run()` on exactly those jobs `j` with `j.is_due()` true
and `j.is_running` false — the invoked ids are exactly the eligible jobs'
ids, and every running or not-due job is left uninvoked (unchanged) in the
registry. -/
theorem check_invokes_exactly_due (ctx : Clock) (s : TaskScheduler) :
    (s.check ctx).2 =
      (s.jobs.filter (fun j => j.is_due ctx && !j.is_running)).map SchedJob.jobid ∧
    (s.check ctx).1.jobs =
      s.jobs.map (fun j => if j.is_due ctx && !j.is_running then j.run ctx else j) := by
  constructor <;> simp [TaskScheduler.check, checkPass_eq]

/-- Claim C1: a dispatch pass `check()` never removes a job — the registry
length is unchanged — and a `OneTimeJob` whose scheduled date has passed
(its `next_run_at` is the `0` sentinel, or it is due and fires this pass)
is still registered afterwards with `next_run_at = 0`. -/
theorem onetime_survives_check (ctx : Clock) (s : TaskScheduler) (i : Nat)
    (hvar : (s.jobs[i]?).map SchedJob.variant = some .OneTimeJob)
    (hpast : (s.jobs[i]?).map SchedJob.next_run_at = some 0 ∨
             (s.jobs[i]?).map (fun j => j.is_due ctx) = some true) :
    (s.check ctx).1.jobs.length = s.jobs.length ∧
    ((s.check ctx).1.jobs[i]?).map SchedJob.variant = some .OneTimeJob ∧
    ((s.check ctx).1.jobs[i]?).map SchedJob.next_run_at = some 0 := by
  have hjobs : (s.check ctx).1.jobs =
      s.jobs.map (fun j => if j.is_due ctx && !j.is_running then j.run ctx else j) := by
    simp [TaskScheduler.check, checkPass_eq]
  refine ⟨by rw [hjobs]; exact List.length_map .., ?_⟩
  cases hij : s.jobs[i]? with
  | none => rw [hij] at hvar; simp at hvar
  | some j =>
    rw [hij] at hvar hpast
    have hv : j.variant = .OneTimeJob := by simpa using hvar
    have hmap : ((s.check ctx).1.jobs[i]?) =
        some (if j.is_due ctx && !j.is_running then j.run ctx else j) := by
      rw [hjobs, List.getElem?_map, hij]; rfl
    by_cases hdue : (j.is_due ctx && !j.is_running) = true
    · have hrun : j.is_running = false :=
        is_due_not_running j ctx (by
          have := hdue
          simp [Bool.and_eq_true] at this
          exact this.1)
      rw [hmap, if_pos hdue]
      constructor
      · simp [SchedJob.run, hrun, hv]
      · simp [SchedJob.run, hrun, SchedJob.afterRunNext, hv]
    · rw [hmap, if_neg hdue]
      refine ⟨by simpa using hvar, ?_⟩
      rcases hpast with h0 | hd
      · simpa using h0
      · exfalso
        have hd2 : j.is_due ctx = true := by simpa using hd
        have hr : j.is_running = false := is_due_not_running j ctx hd2
        rw [hd2, hr] at hdue
        simp at hdue

/-- A concrete timezone database for witnesses: only `"UTC"` and
`"US/Eastern"` resolve. -/
def tzdbW : String → Bool := fun s => s == "UTC" || s == "US/Eastern"

/-- A freshly constructed scheduler over UTC with default settings, as
`TaskScheduler.pyInit tzdbW "UTC" none none 0` produces. -/
def freshUTC : TaskScheduler :=
  { jobs := [], tz_default := "UTC", holidays_calendar := "USHolidays",
    startup_grace_mins := 0, interval := Option.none, temp_time := Option.none,
    tzname := "UTC", strict_monthly := Option.none, job_calendar := Option.none }

example : TaskScheduler.pyInit tzdbW "UTC" Option.none Option.none 0 = .ok freshUTC := by
  rfl

/-- Unwrap a successful registration, keeping the previous scheduler state on
error (used only to build concrete witness states). -/
def regOk (r : Except PyErr (TaskScheduler × SchedJob)) (d : TaskScheduler) :
    TaskScheduler :=
  match r with
  | .ok p => p.1
  | .error _ => d

/-- A concrete clock for witnesses: the moment is epoch second
`1700000000` (2023-11-14), yesterday resolves to a passed instant and
tomorrow to a future one. -/
def ctx1 : Clock :=
  { now := 1700000000,
    nowHHMM := fun tzn => if tzn == "UTC" then "10:00" else "05:00",
    today := fun _ => { dow := 1, is_holiday := false, date_str := "2023-11-14",
                        day_of_month := 14, days_in_month := 30 },
    toEpoch := fun d _ _ =>
      if d == "2023-11-13" then 1699000000
      else if d == "2023-11-15" then 1700086340
      else 0,
    nextOccur := fun _ _ _ => 1700086340 }

/-- Scheduler with one past-dated one-time job registered. -/
def c1sched1 : TaskScheduler :=
  regOk (((freshUTC.on (.str "2023-11-13") Option.none).at_ "23:59").do_ ctx1 false) freshUTC

/-- Scheduler with the past-dated and a future-dated one-time job. -/
def c1sched2 : TaskScheduler :=
  regOk (((c1sched1.on (.str "2023-11-15") Option.none).at_ "23:59").do_ ctx1 false) c1sched1

/-- Witness for C1: registering one past-dated and one future-dated one-time
job and calling `check()` leaves both registered (size = 2); the past job's
`next_run_at` is `0` and the future job keeps tomorrow's timestamp. -/
theorem onetime_survives_check_witness :
    c1sched2.jobs.length = 2 ∧
    (c1sched2.jobs[0]?).map SchedJob.variant = some .OneTimeJob ∧
    (c1sched2.jobs[0]?).map SchedJob.next_run_at = some 0 ∧
    (c1sched2.jobs[1]?).map SchedJob.next_run_at = some 1700086340 ∧
    (c1sched2.check ctx1).1.jobs.length = 2 ∧
    ((c1sched2.check ctx1).1.jobs[0]?).map SchedJob.variant = some .OneTimeJob ∧
    ((c1sched2.check ctx1).1.jobs[0]?).map SchedJob.next_run_at = some 0 ∧
    ((c1sched2.check ctx1).1.jobs[1]?).map SchedJob.next_run_at = some 1700086340 := by
  have h := onetime_survives_check ctx1 c1sched2 0 (by decide) (Or.inl (by decide))
  exact ⟨by decide, by decide, by decide, by decide,
         h.1.trans (by decide), h.2.1, h.2.2, by decide⟩

/-- Claim C4: the monitor's derived state has exactly the precedence
RUNNING (if `is_running`) before ERROR (stripped `logs.err` nonempty)
before SUCCESS (`logs.end` non-null and stripped `logs.log` nonempty)
before READY: a running job shows RUNNING whatever its logs hold, a
non-running job with error text shows ERROR even if `logs.end` and
`logs.log` are set, and so on ("non-empty" is the code's
`.strip() != ''` test). -/
theorem job_state_precedence (jd : JobDict) :
    (jd.is_running = true → ReadOnlyTaskMonitor.job_state jd = "RUNNING") ∧
    (jd.is_running = false → pyStrip jd.logs.err ≠ "" →
      ReadOnlyTaskMonitor.job_state jd = "ERROR") ∧
    (jd.is_running = false → pyStrip jd.logs.err = "" →
      jd.logs.end_.isSome = true → pyStrip jd.logs.log ≠ "" →
      ReadOnlyTaskMonitor.job_state jd = "SUCCESS") ∧
    (jd.is_running = false → pyStrip jd.logs.err = "" →
      (jd.logs.end_ = Option.none ∨ pyStrip jd.logs.log = "") →
      ReadOnlyTaskMonitor.job_state jd = "READY") := by
  refine ⟨fun h => by simp [ReadOnlyTaskMonitor.job_state, h],
          fun h he => by simp [ReadOnlyTaskMonitor.job_state, h, he],
          fun h he hend hlog => by
            simp [ReadOnlyTaskMonitor.job_state, h, he, hend, hlog],
          fun h he hro => ?_⟩
  rcases hro with hend | hlog
  · simp [ReadOnlyTaskMonitor.job_state, h, he, hend]
  · simp [ReadOnlyTaskMonitor.job_state, h, he, hlog]

/-- Witness for C4: a running job with error text shows RUNNING; a
non-running job with error text shows ERROR even with `end` and `log` set;
a finished clean job shows SUCCESS; a whitespace-only error does not count
as an error. -/
theorem job_state_precedence_witness :
    ReadOnlyTaskMonitor.job_state
      { is_running := true,
        logs := { start := some 5, end_ := Option.none, log := "", err := "boom" } }
      = "RUNNING" ∧
    ReadOnlyTaskMonitor.job_state
      { is_running := false,
        logs := { start := some 5, end_ := some 9, log := "done", err := "boom" } }
      = "ERROR" ∧
    ReadOnlyTaskMonitor.job_state
      { is_running := false,
        logs := { start := some 5, end_ := some 9, log := "done", err := "" } }
      = "SUCCESS" ∧
    ReadOnlyTaskMonitor.job_state
      { is_running := false,
        logs := { start := some 5, end_ := some 9, log := "  ", err := " " } }
      = "READY" := by
  refine ⟨(job_state_precedence _).1 (by decide),
          (job_state_precedence _).2.1 (by decide) (by decide),
          (job_state_precedence _).2.2.1 (by decide) (by decide) (by decide) (by decide),
          (job_state_precedence _).2.2.2 (by decide) (by decide) (Or.inr (by decide))⟩

/-- Claim C5: `rerun(job_id)` raises `IndexError` when no registered job has
that id, raises `RuntimeError` when the selected job is running, and
otherwise force-runs the selected job through the async wrapper (wrapping a
serial job on the fly) with `is_rerun` set. -/
theorem rerun_spec (s : TaskScheduler) (jobid : Nat) :
    ((∀ j ∈ s.jobs, ¬ j.jobid = jobid) → s.rerun jobid = .error .indexError) ∧
    (∀ j, s.get_job_by_id jobid = some j →
      (j.is_running = true → s.rerun jobid = .error .runtimeError) ∧
      (j.is_running = false →
        s.rerun jobid = .ok { jobid := j.jobid, viaAsyncWrapper := true,
                              is_rerun := true })) := by
  constructor
  · intro hnone
    have hfind : s.jobs.find? (fun j => j.jobid == jobid) = Option.none := by
      rw [List.find?_eq_none]
      intro j hj
      simpa using hnone j hj
    simp [TaskScheduler.rerun, TaskScheduler.get_job_by_id, hfind]
  · intro j hj
    constructor
    · intro hr
      simp [TaskScheduler.rerun, TaskScheduler.get_job_by_id] at hj ⊢
      rw [hj]
      simp [hr]
    · intro hr
      simp [TaskScheduler.rerun, TaskScheduler.get_job_by_id] at hj ⊢
      rw [hj]
      cases ha : j.is_async <;> simp [hr, ha]

/-- A concrete registry for the rerun witness: job 0 is running, job 1 is an
idle serial job. -/
def rerunSched : TaskScheduler :=
  { freshUTC with jobs :=
      [{ jobid := 0, variant := .RepeatJob, interval := .int 5, at_time := Option.none,
         tzname := "UTC", calendar := "USHolidays", strict_date := Option.none,
         next_run_at := 1700000005, is_running := true, is_enabled := true,
         is_async := true },
       { jobid := 1, variant := .Job, interval := .str "day", at_time := some "10:00",
         tzname := "UTC", calendar := "USHolidays", strict_date := Option.none,
         next_run_at := 1700003600, is_running := false, is_enabled := true,
         is_async := false }] }

/-- Witness for C5: id 7 is unknown (IndexError), job 0 is running
(RuntimeError), job 1 reruns through the async wrapper with `is_rerun`. -/
theorem rerun_spec_witness :
    rerunSched.rerun 7 = .error .indexError ∧
    rerunSched.rerun 0 = .error .runtimeError ∧
    rerunSched.rerun 1 = .ok { jobid := 1, viaAsyncWrapper := true, is_rerun := true } := by
  refine ⟨(rerun_spec rerunSched 7).1 (by decide), ?_, ?_⟩
  · exact ((rerun_spec rerunSched 0).2 _ (by rfl)).1 (by rfl)
  · exact ((rerun_spec rerunSched 1).2 _ (by rfl)).2 (by rfl)

/-- None of the 31 monthly descriptors has the shape of an ISO date. -/
theorem ordinal_not_iso : ∀ i : Fin 31, isISODate (ordinal (i.1 + 1)) = false := by
  decide

/-- A valid monthly descriptor string is not a valid one-time descriptor. -/
theorem monthly_str_not_iso (s : String) (h : (monthlyOrd s).isSome = true) :
    isISODate s = false := by
  unfold monthlyOrd at h
  rw [Option.isSome_map'] at h
  obtain ⟨i, hi⟩ := Option.isSome_iff_exists.mp h
  have hmem : i ∈ List.range 31 := List.mem_of_find?_eq_some hi
  have hlt : i < 31 := List.mem_range.mp hmem
  have hp := List.find?_some hi
  have hs : s = ordinal (i + 1) := (eq_of_beq (by simpa using hp)).symm
  rw [hs]
  exact ordinal_not_iso ⟨i, hlt⟩

/-- Claim C6: `strict_date(b)` succeeds exactly when the pending interval is
a valid monthly descriptor (`"1st"` ... `"31st"`) and `b` is a Python
boolean, raising `BadScheduleError` otherwise; and `do()` on a monthly
descriptor with `strict_date` never set raises `BadScheduleError`. -/
theorem strict_date_spec (ctx : Clock) (s : TaskScheduler) (v : PyVal) (hp : Bool) :
    ((MonthlyJob.is_valid_interval s.interval = false ∨ v.isBool = false) →
      s.strict_date v = .error .badScheduleError) ∧
    (∀ b, MonthlyJob.is_valid_interval s.interval = true → v = .bool b →
      s.strict_date v = .ok { s with strict_monthly := some b }) ∧
    (MonthlyJob.is_valid_interval s.interval = true → s.strict_monthly = Option.none →
      s.do_ ctx hp = .error .badScheduleError) := by
  refine ⟨?_, ?_, ?_⟩
  · intro h
    rcases h with h | h <;> simp [TaskScheduler.strict_date, h]
  · intro b hm hv
    subst hv
    simp [TaskScheduler.strict_date, hm, PyVal.isBool, PyVal.asBool]
  · intro hm hstrict
    cases hiv : s.interval with
    | none => rw [hiv] at hm; simp [MonthlyJob.is_valid_interval] at hm
    | some iv =>
      rw [hiv] at hm
      cases iv with
      | int n => simp [MonthlyJob.is_valid_interval] at hm
      | str str =>
        have hms : (monthlyOrd str).isSome = true := by
          simpa [MonthlyJob.is_valid_interval] using hm
        have hiso := monthly_str_not_iso str hms
        simp [TaskScheduler.do_, doBuild, hiv, RepeatJob.is_valid_interval,
              OneTimeJob.is_valid_interval, hiso, MonthlyJob.is_valid_interval,
              hms, hstrict]

/-- Builder with a pending monthly descriptor and no `strict_date` set. -/
def c6sched : TaskScheduler := freshUTC.every (.str "31st") Option.none

/-- Witness for C6: on the pending `"31st"` interval, a non-bool argument is
rejected, a bool is accepted, and `do()` without `strict_date` raises
`BadScheduleError`. -/
theorem strict_date_spec_witness :
    c6sched.strict_date (.int 1) = .error .badScheduleError ∧
    c6sched.strict_date (.bool true) = .ok { c6sched with strict_monthly := some true } ∧
    c6sched.do_ ctx1 false = .error .badScheduleError := by
  exact ⟨(strict_date_spec ctx1 c6sched (.int 1) false).1 (Or.inr (by decide)),
         (strict_date_spec ctx1 c6sched (.bool true) false).2.1 true (by decide) rfl,
         (strict_date_spec ctx1 c6sched (.bool true) false).2.2 (by decide) (by decide)⟩

/-- Counterexample for C7: constructing the scheduler with an unknown
timezone name does fail fast, but with `ValueError` (`sched.py` line 76),
not with `BadScheduleError` as the claim states. -/
theorem tz_ctor_raises_valueerror :
    TaskScheduler.pyInit tzdbW "UTC" (some "Mars/Olympus") Option.none 0
      = .error .valueError ∧
    PyErr.valueError ≠ PyErr.badScheduleError := by
  exact ⟨rfl, by decide⟩

/-- Claim C7 (amended): the builder's `timezone()`/`tz()` with an unknown
name raise `BadScheduleError`; constructing the scheduler with an unknown
`tzname` also fails fast at configuration time, but with `ValueError`
rather than `BadScheduleError`. -/
theorem tz_failures_fail_fast (db : String → Bool) (s : TaskScheduler)
    (name : String) (h : db name = false) :
    s.timezone db name = .error .badScheduleError ∧
    s.tz db name = .error .badScheduleError ∧
    ∀ lz cal g, TaskScheduler.pyInit db lz (some name) cal g = .error .valueError := by
  refine ⟨?_, ?_, ?_⟩
  · simp [TaskScheduler.timezone, h]
  · simp [TaskScheduler.tz, TaskScheduler.timezone, h]
  · intro lz cal g
    simp [TaskScheduler.pyInit, h]

/-- Witness for C7 (amended): `"Mars/Olympus"` is unknown to the concrete
timezone database, so `timezone()`/`tz()` raise `BadScheduleError` and the
constructor raises `ValueError`. -/
theorem tz_failures_fail_fast_witness :
    freshUTC.timezone tzdbW "Mars/Olympus" = .error .badScheduleError ∧
    freshUTC.tz tzdbW "Mars/Olympus" = .error .badScheduleError ∧
    TaskScheduler.pyInit tzdbW "UTC" (some "Mars/Olympus") Option.none 0
      = .error .valueError := by
  have h := tz_failures_fail_fast tzdbW freshUTC "Mars/Olympus" (by decide)
  exact ⟨h.1, h.2.1, h.2.2 "UTC" Option.none 0⟩

/-- The fixed variant order of the claim and the spec:
Repeat → OneTime → Monthly → Job → Never. -/
def variantOrder : List JobVariant :=
  [.RepeatJob, .OneTimeJob, .MonthlyJob, .Job, .NeverJob]

/-- Which `is_valid_interval` predicate each variant contributes. -/
def variantAccepts : JobVariant → Option IntervalDesc → Bool
  | .RepeatJob, iv => RepeatJob.is_valid_interval iv
  | .OneTimeJob, iv => OneTimeJob.is_valid_interval iv
  | .MonthlyJob, iv => MonthlyJob.is_valid_interval iv
  | .Job, iv => Job.is_valid_interval iv
  | .NeverJob, iv => NeverJob.is_valid_interval iv

/-- The first variant in the fixed order whose `is_valid_interval` accepts
the descriptor (the spec-side description of `do()`'s selection). -/
def selectVariant (iv : IntervalDesc) : Option JobVariant :=
  variantOrder.find? (fun v => variantAccepts v (some iv))

/-- `selectVariant` in if-cascade form. -/
theorem selectVariant_eq (iv : IntervalDesc) :
    selectVariant iv =
      (if RepeatJob.is_valid_interval (some iv) then some .RepeatJob
       else if OneTimeJob.is_valid_interval (some iv) then some .OneTimeJob
       else if MonthlyJob.is_valid_interval (some iv) then some .MonthlyJob
       else if Job.is_valid_interval (some iv) then some .Job
       else if NeverJob.is_valid_interval (some iv) then some .NeverJob
       else Option.none) := by
  unfold selectVariant variantOrder
  by_cases h1 : RepeatJob.is_valid_interval (some iv) = true <;>
    by_cases h2 : OneTimeJob.is_valid_interval (some iv) = true <;>
      by_cases h3 : MonthlyJob.is_valid_interval (some iv) = true <;>
        by_cases h4 : Job.is_valid_interval (some iv) = true <;>
          by_cases h5 : NeverJob.is_valid_interval (some iv) = true <;>
            simp [List.find?, variantAccepts, h1, h2, h3, h4, h5]

/-- The builder's pending time string used by `do()`: the recorded `.at()`
time, else the current wall clock in the default timezone. -/
theorem do_temp_eq (s : TaskScheduler) (d : String) :
    (match s.temp_time with
     | some t => t
     | Option.none => d) = s.temp_time.getD d := by
  cases s.temp_time <;> rfl

/-- `do()` with a pending interval, written through `doBuild`. -/
theorem do_eq_build (ctx : Clock) (s : TaskScheduler) (hp : Bool)
    (iv : IntervalDesc) (hiv : s.interval = some iv) :
    s.do_ ctx hp =
      match doBuild s.jobs.length iv (s.temp_time.getD (ctx.nowHHMM s.tz_default))
          s.strict_monthly with
      | .error e => .error e
      | .ok j0 =>
        let j2 := if hp then { jobInitialize ctx s j0 with is_async := true }
                  else jobInitialize ctx s j0
        .ok ({ s.reset_defaults with jobs := s.jobs ++ [j2] }, j2) := by
  simp only [TaskScheduler.do_, hiv]
  cases s.temp_time <;> rfl

/-- Claim C3: for every pending descriptor, `do()` tests `is_valid_interval`
in the fixed order RepeatJob → OneTimeJob → MonthlyJob → Job → NeverJob,
constructs the first variant that accepts it, and raises `BadScheduleError`
when no variant accepts the descriptor (monthly jobs additionally need
`strict_date` set; that error path is claim C6). -/
theorem do_selects_first_variant (ctx : Clock) (s : TaskScheduler)
    (iv : IntervalDesc) (hp : Bool) (hiv : s.interval = some iv)
    (hstrict : MonthlyJob.is_valid_interval (some iv) = true →
      s.strict_monthly.isSome = true) :
    (selectVariant iv = Option.none → s.do_ ctx hp = .error .badScheduleError) ∧
    (∀ v, selectVariant iv = some v →
      ∃ s2 j, s.do_ ctx hp = .ok (s2, j) ∧ j.variant = v) := by
  have hsel := selectVariant_eq iv
  have hdo := do_eq_build ctx s hp iv hiv
  by_cases h1 : RepeatJob.is_valid_interval (some iv) = true
  · constructor
    · intro h; rw [hsel] at h; simp [h1] at h
    · intro v hv
      rw [hsel] at hv; simp [h1] at hv; subst hv
      have hb : doBuild s.jobs.length iv
          (s.temp_time.getD (ctx.nowHHMM s.tz_default)) s.strict_monthly
          = .ok (mkJob s.jobs.length .RepeatJob iv Option.none Option.none) := by
        simp [doBuild, h1]
      rw [hdo, hb]
      exact ⟨_, _, rfl, by cases hp <;> rfl⟩
  · by_cases h2 : OneTimeJob.is_valid_interval (some iv) = true
    · constructor
      · intro h; rw [hsel] at h; simp [h1, h2] at h
      · intro v hv
        rw [hsel] at hv; simp [h1, h2] at hv; subst hv
        have hb : doBuild s.jobs.length iv
            (s.temp_time.getD (ctx.nowHHMM s.tz_default)) s.strict_monthly
            = .ok (mkJob s.jobs.length .OneTimeJob iv
                (some (s.temp_time.getD (ctx.nowHHMM s.tz_default))) Option.none) := by
          simp [doBuild, h1, h2]
        rw [hdo, hb]
        exact ⟨_, _, rfl, by cases hp <;> rfl⟩
    · by_cases h3 : MonthlyJob.is_valid_interval (some iv) = true
      · cases hsm : s.strict_monthly with
        | none => rw [hsm] at hstrict; simp [h3] at hstrict
        | some b =>
          constructor
          · intro h; rw [hsel] at h; simp [h1, h2, h3] at h
          · intro v hv
            rw [hsel] at hv; simp [h1, h2, h3] at hv; subst hv
            have hb : doBuild s.jobs.length iv
                (s.temp_time.getD (ctx.nowHHMM s.tz_default)) s.strict_monthly
                = .ok (mkJob s.jobs.length .MonthlyJob iv
                    (some (s.temp_time.getD (ctx.nowHHMM s.tz_default))) (some b)) := by
              simp [doBuild, h1, h2, h3, hsm]
            rw [hdo, hb]
            exact ⟨_, _, rfl, by cases hp <;> rfl⟩
      · by_cases h4 : Job.is_valid_interval (some iv) = true
        · constructor
          · intro h; rw [hsel] at h; simp [h1, h2, h3, h4] at h
          · intro v hv
            rw [hsel] at hv; simp [h1, h2, h3, h4] at hv; subst hv
            have hb : doBuild s.jobs.length iv
                (s.temp_time.getD (ctx.nowHHMM s.tz_default)) s.strict_monthly
                = .ok (mkJob s.jobs.length .Job iv
                    (some (s.temp_time.getD (ctx.nowHHMM s.tz_default))) Option.none) := by
              simp [doBuild, h1, h2, h3, h4]
            rw [hdo, hb]
            exact ⟨_, _, rfl, by cases hp <;> rfl⟩
        · by_cases h5 : NeverJob.is_valid_interval (some iv) = true
          · constructor
            · intro h; rw [hsel] at h; simp [h1, h2, h3, h4, h5] at h
            · intro v hv
              rw [hsel] at hv; simp [h1, h2, h3, h4, h5] at hv; subst hv
              have hb : doBuild s.jobs.length iv
                  (s.temp_time.getD (ctx.nowHHMM s.tz_default)) s.strict_monthly
                  = .ok (mkJob s.jobs.length .NeverJob iv
                      (some (s.temp_time.getD (ctx.nowHHMM s.tz_default))) Option.none) := by
                simp [doBuild, h1, h2, h3, h4, h5]
              rw [hdo, hb]
              exact ⟨_, _, rfl, by cases hp <;> rfl⟩
          · constructor
            · intro _
              have hb : doBuild s.jobs.length iv
                  (s.temp_time.getD (ctx.nowHHMM s.tz_default)) s.strict_monthly
                  = .error .badScheduleError := by
                simp [doBuild, h1, h2, h3, h4, h5]
              rw [hdo, hb]
            · intro v hv
              rw [hsel] at hv; simp [h1, h2, h3, h4, h5] at hv

/-- Builder with pending interval `"never"`. -/
def c3schedNever : TaskScheduler := freshUTC.every (.str "never") Option.none

/-- Builder with pending interval `"bogus"`, accepted by no variant. -/
def c3schedBogus : TaskScheduler := freshUTC.every (.str "bogus") Option.none

/-- Witness for C3: `"never"` falls through the first four predicates to a
`NeverJob`; `"bogus"` is rejected with `BadScheduleError`. -/
theorem do_selects_first_variant_witness :
    (∃ s2 j, c3schedNever.do_ ctx1 false = .ok (s2, j) ∧ j.variant = .NeverJob) ∧
    c3schedBogus.do_ ctx1 false = .error .badScheduleError := by
  exact ⟨(do_selects_first_variant ctx1 c3schedNever (.str "never") false rfl
            (by decide)).2 .NeverJob (by decide),
         (do_selects_first_variant ctx1 c3schedBogus (.str "bogus") false rfl
            (by decide)).1 (by decide)⟩

/-- Destruct a successful `do()`: the pending interval existed, `doBuild`
accepted it producing `j0`, the returned job is the initialized (and
possibly async-wrapped) `j0`, and the new state is the old one with the job
appended and the builder defaults reset. -/
theorem do_ok_dest (ctx : Clock) (s : TaskScheduler) (hp : Bool)
    (s2 : TaskScheduler) (j : SchedJob) (hok : s.do_ ctx hp = .ok (s2, j)) :
    ∃ iv j0, s.interval = some iv ∧
      doBuild s.jobs.length iv (s.temp_time.getD (ctx.nowHHMM s.tz_default))
        s.strict_monthly = .ok j0 ∧
      j = (if hp then { jobInitialize ctx s j0 with is_async := true }
           else jobInitialize ctx s j0) ∧
      s2 = { s.reset_defaults with jobs := s.jobs ++ [j] } := by
  cases hiv : s.interval with
  | none => simp [TaskScheduler.do_, hiv] at hok
  | some iv =>
    rw [do_eq_build ctx s hp iv hiv] at hok
    cases hb : doBuild s.jobs.length iv
        (s.temp_time.getD (ctx.nowHHMM s.tz_default)) s.strict_monthly with
    | error e => rw [hb] at hok; simp at hok
    | ok j0 =>
      rw [hb] at hok
      simp only [Except.ok.injEq, Prod.mk.injEq] at hok
      obtain ⟨hs2, hj⟩ := hok
      exact ⟨iv, j0, rfl, hb, hj.symm, by rw [← hs2, ← hj]⟩

/-- Claim C9: every successful `do()` resets the builder's transient fields:
the pending interval, at-anchor, strict-monthly flag and per-job calendar
are cleared and the pending timezone is restored to the scheduler default;
only the appended job remains. -/
theorem do_resets_builder (ctx : Clock) (s : TaskScheduler) (hp : Bool)
    (s2 : TaskScheduler) (j : SchedJob) (hok : s.do_ ctx hp = .ok (s2, j)) :
    s2.interval = Option.none ∧ s2.temp_time = Option.none ∧
    s2.strict_monthly = Option.none ∧ s2.job_calendar = Option.none ∧
    s2.tzname = s.tz_default ∧ s2.tz_default = s.tz_default ∧
    s2.jobs = s.jobs ++ [j] := by
  obtain ⟨iv, j0, hiv, hb, hj, hs2⟩ := do_ok_dest ctx s hp s2 j hok
  subst hs2
  exact ⟨rfl, rfl, rfl, rfl, rfl, rfl, rfl⟩

/-- Witness for C9: after registering a `"never"` job, the builder state is
fully reset (interval, at-anchor, strict flag, per-job calendar cleared; the
pending timezone back to the default). -/
theorem do_resets_builder_witness :
    ∃ s2 j, c3schedNever.do_ ctx1 false = .ok (s2, j) ∧
      s2.interval = Option.none ∧ s2.temp_time = Option.none ∧
      s2.strict_monthly = Option.none ∧ s2.job_calendar = Option.none ∧
      s2.tzname = c3schedNever.tz_default := by
  refine ⟨_, _, rfl, ?_⟩
  have h := do_resets_builder ctx1 c3schedNever false _ _ rfl
  exact ⟨h.1, h.2.1, h.2.2.1, h.2.2.2.1, h.2.2.2.2.1⟩

/-- Every non-`RepeatJob` variant constructor receives the pending time
string as its anchor. -/
theorem doBuild_at_time (nid : Nat) (iv : IntervalDesc) (tt : String)
    (sm : Option Bool) (j0 : SchedJob)
    (hrep : RepeatJob.is_valid_interval (some iv) = false)
    (h : doBuild nid iv tt sm = .ok j0) : j0.at_time = some tt := by
  unfold doBuild at h
  rw [if_neg (by rw [hrep]; exact Bool.false_ne_true)] at h
  by_cases h2 : OneTimeJob.is_valid_interval (some iv) = true
  · rw [if_pos h2] at h
    injection h with h
    subst h; rfl
  · rw [if_neg h2] at h
    by_cases h3 : MonthlyJob.is_valid_interval (some iv) = true
    · rw [if_pos h3] at h
      cases hsm : sm with
      | none => rw [hsm] at h; simp at h
      | some b => rw [hsm] at h; injection h with h; subst h; rfl
    · rw [if_neg h3] at h
      by_cases h4 : Job.is_valid_interval (some iv) = true
      · rw [if_pos h4] at h; injection h with h; subst h; rfl
      · rw [if_neg h4] at h
        by_cases h5 : NeverJob.is_valid_interval (some iv) = true
        · rw [if_pos h5] at h; injection h with h; subst h; rfl
        · rw [if_neg h5] at h; simp at h

/-- `init` does not touch the job's anchor time. -/
theorem jobInitialize_at_time (ctx : Clock) (s : TaskScheduler) (j : SchedJob) :
    (jobInitialize ctx s j).at_time = j.at_time := rfl

/-- Claim C8: when `.at()` is omitted, `do()` anchors the (non-`RepeatJob`)
job at the current wall clock formatted `HH:MM` in the scheduler's default
timezone — not in the job's per-job timezone, even when `timezone()`/`tz()`
was called for that job. -/
theorem do_default_at_uses_default_tz (ctx : Clock) (s : TaskScheduler)
    (iv : IntervalDesc) (hp : Bool) (hiv : s.interval = some iv)
    (htt : s.temp_time = Option.none)
    (hrep : RepeatJob.is_valid_interval (some iv) = false)
    (s2 : TaskScheduler) (j : SchedJob) (hok : s.do_ ctx hp = .ok (s2, j)) :
    j.at_time = some (ctx.nowHHMM s.tz_default) := by
  obtain ⟨iv2, j0, hiv2, hb, hj, _⟩ := do_ok_dest ctx s hp s2 j hok
  rw [hiv] at hiv2
  injection hiv2 with hivv
  subst hivv
  have hat : j0.at_time
      = some (s.temp_time.getD (ctx.nowHHMM s.tz_default)) :=
    doBuild_at_time _ _ _ _ _ hrep hb
  subst hj
  cases hp <;> simpa [jobInitialize_at_time, htt] using hat

/-- Builder for the C8 witness: daily interval, per-job timezone
`"US/Eastern"` set through `timezone()`, `.at()` omitted. -/
def c8sched : TaskScheduler :=
  match (freshUTC.every (.str "day") Option.none).timezone tzdbW "US/Eastern" with
  | .ok s => s
  | .error _ => freshUTC

/-- Witness for C8: with `.at()` omitted and the per-job timezone set to
`"US/Eastern"`, the registered job is anchored at `ctx1`'s wall clock in the
default `"UTC"` timezone (`"10:00"`), not at the per-job one (`"05:00"`). -/
theorem do_default_at_uses_default_tz_witness :
    (∃ s2 j, c8sched.do_ ctx1 false = .ok (s2, j) ∧
      j.at_time = some (ctx1.nowHHMM c8sched.tz_default) ∧
      j.tzname = "US/Eastern") ∧
    ctx1.nowHHMM c8sched.tz_default = "10:00" ∧
    ctx1.nowHHMM "US/Eastern" = "05:00" := by
  refine ⟨⟨_, _, rfl, ?_, by decide⟩, by decide, by decide⟩
  exact do_default_at_uses_default_tz ctx1 c8sched (.str "day") false rfl rfl rfl _ _ rfl

/-- Claim C10: calling `at(t)` with no interval chosen implicitly selects
the `'day'` interval: on a fresh builder, `.at(t).do(f)` registers a daily
`Job` (anchored at `t`) instead of raising the missing-interval `Exception`
that `do()` raises when the interval is `None`. -/
theorem at_defaults_to_day (ctx : Clock) (s : TaskScheduler) (t : String)
    (hp : Bool) (hiv : s.interval = Option.none) :
    (s.at_ t).interval = some (.str "day") ∧
    s.do_ ctx hp = .error .exception ∧
    ∃ s2 j, (s.at_ t).do_ ctx hp = .ok (s2, j) ∧ j.variant = .Job ∧
      j.interval = .str "day" ∧ j.at_time = some t := by
  have hs1 : s.at_ t
      = { s with
          interval := some (.str "day")
          job_calendar := Option.none
          temp_time := some t } := by
    simp [TaskScheduler.at_, TaskScheduler.every, hiv]
  refine ⟨by rw [hs1], by simp [TaskScheduler.do_, hiv], ?_⟩
  have hb : doBuild s.jobs.length (.str "day") t s.strict_monthly
      = .ok (mkJob s.jobs.length .Job (.str "day") (some t) Option.none) := by
    unfold doBuild
    rw [if_neg (by decide), if_neg (by decide), if_neg (by decide), if_pos (by decide)]
  rw [hs1, do_eq_build ctx _ hp (.str "day") rfl]
  dsimp only [Option.getD]
  rw [hb]
  exact ⟨_, _, rfl, by cases hp <;> rfl, by cases hp <;> rfl, by cases hp <;> rfl⟩

/-- Witness for C10: on a fresh builder, `.at("09:30").do(f)` succeeds with
a daily job while a bare `.do(f)` raises the missing-interval error. -/
theorem at_defaults_to_day_witness :
    (freshUTC.at_ "09:30").interval = some (.str "day") ∧
    freshUTC.do_ ctx1 false = .error .exception ∧
    ∃ s2 j, (freshUTC.at_ "09:30").do_ ctx1 false = .ok (s2, j) ∧
      j.variant = .Job ∧ j.interval = .str "day" ∧ j.at_time = some "09:30" :=
  at_defaults_to_day ctx1 freshUTC "09:30" false rfl
